import Mathlib

/-!
Verification of the `ForLoop` action from `launch/actions/for_loop.py`.

The source file defines a launch action that, when executed, reads an
iteration count `num` from a launch configuration, and returns a flat list
of entities consisting, for each iteration `i` in `range(num)`, of:
an `OpaqueFunction` pushing a locals scope, an `OpaqueFunction` binding the
loop variable to `str(i)`, a fresh instantiation of every template entity,
and an `OpaqueFunction` popping the locals scope.

The embedding below translates `ForLoop.execute`, `ForLoop._push_locals`,
`ForLoop._pop_locals` and `ForLoop._set_index_local` from the source.
The collaborators (`LaunchContext` locals storage, `LaunchConfiguration`
resolution, `OpaqueFunction` execution, Python `int()` parsing) are not
part of the given sources and are modelled from the spec, as marked on
each definition.
-/

namespace LaunchForLoop

/-- Modelled from the spec: one scope frame of the Scoped Variable Store,
a mapping from variable name to string value (association list, most
recent binding first). -/
abbrev Frame := List (String × String)

/-- Modelled from the spec: the Scoped Variable Store is a stack of
frames, top frame first. -/
abbrev Locals := List Frame

/-- Lookup of a name inside a single frame: first matching binding. -/
def lookupFrame : Frame → String → Option String
  | [], _ => none
  | (k, v) :: rest, name => if name = k then some v else lookupFrame rest name

/-- Modelled from the spec: lookup resolves to the nearest enclosing
frame holding a binding for the name. -/
def lookupLocals : Locals → String → Option String
  | [], _ => none
  | f :: rest, name =>
    match lookupFrame f name with
    | some v => some v
    | none => lookupLocals rest name

/-- Modelled from the spec: the membership test used by the shadowing
check (`local_name in context.locals` in the source). -/
def containsLocals (s : Locals) (name : String) : Bool :=
  (lookupLocals s name).isSome

/-- Modelled from the spec: execution context. `launch_configurations`
is the flat map read by `LaunchConfiguration.perform`; `locals_stack` is
the Scoped Variable Store mutated by the emitted scope steps. -/
structure LaunchContext where
  launch_configurations : List (String × String)
  locals_stack : Locals
deriving Repr

/-- Modelled from the spec: `context._push_locals()` pushes a fresh empty
frame on top of the store. -/
def LaunchContext.pushLocals (ctx : LaunchContext) : LaunchContext :=
  { ctx with locals_stack := [] :: ctx.locals_stack }

/-- Modelled from the spec: `context._pop_locals()` discards exactly the
top frame of the store. -/
def LaunchContext.popLocals (ctx : LaunchContext) : LaunchContext :=
  { ctx with locals_stack := ctx.locals_stack.tail }

/-- Modelled from the spec: `context.extend_locals({name: v})` binds the
name in the current top frame (creating a base frame if none exists). -/
def LaunchContext.extendLocals (ctx : LaunchContext) (name v : String) :
    LaunchContext :=
  { ctx with locals_stack :=
      match ctx.locals_stack with
      | [] => [[(name, v)]]
      | f :: rest => ((name, v) :: f) :: rest }

/-- Lookup through the frame chain of a context. -/
def LaunchContext.lookupLocal (ctx : LaunchContext) (name : String) :
    Option String :=
  lookupLocals ctx.locals_stack name

/-- Modelled from the spec: `LaunchConfiguration(name).perform(context)`
reads the resolved string of a declared launch configuration; `none`
stands for the undeclared case (a substitution failure in Python). -/
def lookupConfig (ctx : LaunchContext) (name : String) : Option String :=
  List.lookup name ctx.launch_configurations

/-- Modelled from the spec: characters stripped by Python `int()` around
a numeric literal (ASCII whitespace). -/
def isPySpace (c : Char) : Bool :=
  c = ' ' || c = '\t' || c = '\n' || c = '\x0d' || c = '\x0b' || c = '\x0c'

/-- Drop leading Python whitespace characters. -/
def dropPySpaces : List Char → List Char
  | [] => []
  | c :: rest => if isPySpace c then dropPySpaces rest else c :: rest

/-- Strip Python whitespace from both ends. -/
def pyStrip (l : List Char) : List Char :=
  (dropPySpaces (dropPySpaces l).reverse).reverse

/-- Valid digit body of a Python base-10 int literal: nonempty, starts
and ends with a digit, an underscore only between digits. -/
def pyDigitsOk : List Char → Bool
  | [] => false
  | [c] => c.isDigit
  | c :: c2 :: rest =>
    if c.isDigit then pyDigitsOk (c2 :: rest)
    else c = '_' && c2.isDigit && pyDigitsOk (c2 :: rest)

/-- Valid digit body including the leading-character rule: Python
rejects a body that starts with an underscore. -/
def pyBodyOk : List Char → Bool
  | [] => false
  | c :: rest => c.isDigit && pyDigitsOk (c :: rest)

/-- Numeric value of a digit body, ignoring underscores. -/
def pyDigitsVal (l : List Char) : Nat :=
  l.foldl (fun acc c => if c = '_' then acc else acc * 10 + (c.toNat - 48)) 0

/-- Modelled from the spec: Python `int(s)` for a base-10 string —
optional surrounding whitespace, an optional single sign, then a digit
body (underscores permitted between digits). Returns `none` where Python
raises `ValueError`. -/
def pyParseInt (s : String) : Option Int :=
  let t := pyStrip s.data
  match t with
  | '-' :: rest => if pyBodyOk rest then some (-(pyDigitsVal rest : Int)) else none
  | '+' :: rest => if pyBodyOk rest then some (pyDigitsVal rest : Int) else none
  | _ => if pyBodyOk t then some (pyDigitsVal t : Int) else none

/-- Spec-side predicate (from the words of the spec, not the source):
the string parses as a NON-NEGATIVE integer. Used to compare the spec
claim about count resolution with what the source does. -/
def specParsesAsNonNegInt (s : String) : Bool :=
  match pyParseInt s with
  | some n => decide (0 ≤ n)
  | none => false

/-- Entities appearing in the list returned by `ForLoop.execute`:
the three `OpaqueFunction` scope steps bound to `_push_locals`,
`_set_index_local` and `_pop_locals`, and the template instances created
by `entity_t(**entity_kwargs)` inside the loop. A template instance is
tagged with the iteration number and its position in the template list:
distinct tags model the distinct object identities that distinct Python
constructor calls produce. -/
inductive Entity (Data : Type) where
  | pushLocals : Entity Data
  | setIndexLocal (local_name : String) (index : Nat) : Entity Data
  | popLocals : Entity Data
  | template (iter : Nat) (pos : Nat) (data : Data) : Entity Data
deriving Repr, DecidableEq

/-- Recogniser for the scope-push step. -/
def Entity.isPush {Data : Type} : Entity Data → Bool
  | .pushLocals => true
  | _ => false

/-- Recogniser for the index-bind step. -/
def Entity.isBind {Data : Type} : Entity Data → Bool
  | .setIndexLocal _ _ => true
  | _ => false

/-- Recogniser for the scope-pop step. -/
def Entity.isPop {Data : Type} : Entity Data → Bool
  | .popLocals => true
  | _ => false

/-- Recogniser for template-derived entities. -/
def Entity.isTemplate {Data : Type} : Entity Data → Bool
  | .template _ _ _ => true
  | _ => false

/-- The `ForLoop` action: the fields stored by `ForLoop.__init__`.
`entities` embeds the `(entity_t, entity_kwargs)` template pairs: each
pair becomes a factory that, applied at a given call (the iteration
number, since the source calls each factory once per iteration), either
produces the instance data or fails as a Python constructor would. -/
structure ForLoop (Data : Type) where
  launch_argument_name : String
  entities : List (Nat → Except String Data)

/-- Errors of `ForLoop.execute`: count resolution failure (substitution
failure or `int()` ValueError) or a template constructor failure. -/
inductive ForLoopError where
  | countResolution (msg : String)
  | entityConstruction (msg : String)
deriving Repr, DecidableEq

/-- The per-iteration instantiation
`[entity_t(**entity_kwargs) for entity_t, entity_kwargs in self._entities]`:
factories applied in declared order at iteration `i`, short-circuiting at
the first constructor failure; `j` is the running position used for the
identity tag. -/
def instantiateFrom {Data : Type} (i j : Nat) :
    List (Nat → Except String Data) → Except String (List (Entity Data))
  | [] => Except.ok []
  | f :: rest =>
    match f i with
    | Except.error e => Except.error e
    | Except.ok d =>
      match instantiateFrom i (j + 1) rest with
      | Except.error e => Except.error e
      | Except.ok ys => Except.ok (Entity.template i j d :: ys)

/-- All template instances of iteration `i`, in declared order. -/
def instantiateTemplates {Data : Type} (facs : List (Nat → Except String Data))
    (i : Nat) : Except String (List (Entity Data)) :=
  instantiateFrom i 0 facs

/-- The `for i in range(num)` accumulation of `ForLoop.execute`: `m`
iterations remain and `i` is the current index. Each iteration appends
the push step, the bind step, the fresh template instances, and the pop
step; a constructor failure aborts the whole build. -/
def buildLoop {Data : Type} (name : String)
    (facs : List (Nat → Except String Data)) :
    Nat → Nat → Except String (List (Entity Data))
  | 0, _ => Except.ok []
  | m + 1, i =>
    match instantiateTemplates facs i with
    | Except.error e => Except.error e
    | Except.ok ts =>
      match buildLoop name facs m (i + 1) with
      | Except.error e => Except.error e
      | Except.ok rest =>
        Except.ok ((Entity.pushLocals :: Entity.setIndexLocal name i ::
          (ts ++ [Entity.popLocals])) ++ rest)

/-- `ForLoop.execute` in state-passing form: the pair holds the result
of the method body and the `self` object as the method leaves it (the
body of `execute` never assigns to a field of `self`, so the second
component is the receiver unchanged). Resolution: perform the
`LaunchConfiguration`, convert with `int()`, then build `range(num)`
iterations — `Int.toNat` mirrors `range` of a negative number being
empty. -/
def ForLoop.executeS {Data : Type} (fl : ForLoop Data) (ctx : LaunchContext) :
    Except ForLoopError (List (Entity Data)) × ForLoop Data :=
  (match lookupConfig ctx fl.launch_argument_name with
   | none =>
     Except.error (ForLoopError.countResolution
       ("substitution failure: launch configuration " ++ fl.launch_argument_name ++ " not found"))
   | some v =>
     match pyParseInt v with
     | none =>
       Except.error (ForLoopError.countResolution
         ("invalid literal for int with base 10: " ++ v))
     | some n =>
       match buildLoop fl.launch_argument_name fl.entities n.toNat 0 with
       | Except.error e => Except.error (ForLoopError.entityConstruction e)
       | Except.ok es => Except.ok es,
   fl)

/-- The returned expansion of `ForLoop.execute`. -/
def ForLoop.execute {Data : Type} (fl : ForLoop Data) (ctx : LaunchContext) :
    Except ForLoopError (List (Entity Data)) :=
  (fl.executeS ctx).1

/-- Result of executing one entity of the expansion against a context:
the updated context, the warning messages logged, and the optional list
of further entities the entity returns to the driver. -/
structure StepResult (Data : Type) where
  context : LaunchContext
  warnings : List String
  returned : Option (List (Entity Data))

/-- Execution of one emitted entity. The three scope steps embed
`ForLoop._push_locals`, `ForLoop._set_index_local` and
`ForLoop._pop_locals` from the source (each returns `None`); template
instances execute opaque code, supplied here as the environment
`tmplExec`. `_set_index_local` warns when the name is already visible,
then binds the name to `str(index)` in the current frame. -/
def Entity.exec {Data : Type}
    (tmplExec : Nat → Nat → Data → LaunchContext → StepResult Data) :
    Entity Data → LaunchContext → StepResult Data
  | .pushLocals, ctx => ⟨ctx.pushLocals, [], none⟩
  | .setIndexLocal local_name index, ctx =>
    let w :=
      if containsLocals ctx.locals_stack local_name then
        ["local variable already exists: " ++ local_name ++ "=" ++
          ((lookupLocals ctx.locals_stack local_name).getD "")]
      else []
    ⟨ctx.extendLocals local_name (toString index), w, none⟩
  | .popLocals, ctx => ⟨ctx.popLocals, [], none⟩
  | .template i j d, ctx => tmplExec i j d ctx

/-- Trivial execution environment for template instances carrying no
data: the instance does nothing and returns no further entities. -/
def trivialTemplateExec : Nat → Nat → Unit → LaunchContext → StepResult Unit :=
  fun _ _ _ c => ⟨c, [], none⟩

/-- The state reached by executing one iteration prelude of the emitted
sequence: the push step, then the bind step, as `ForLoop.execute` emits
them. -/
def bindStepAfterPush {Data : Type}
    (env : Nat → Nat → Data → LaunchContext → StepResult Data)
    (ctx : LaunchContext) (name : String) (i : Nat) : StepResult Data :=
  Entity.exec env (Entity.setIndexLocal name i)
    ((Entity.exec env Entity.pushLocals ctx).context)

lemma lookupLocals_emptyFrame (s : Locals) (name : String) :
    lookupLocals ([] :: s) name = lookupLocals s name := by
  simp [lookupLocals, lookupFrame]

lemma containsLocals_emptyFrame (s : Locals) (name : String) :
    containsLocals ([] :: s) name = containsLocals s name := by
  simp [containsLocals, lookupLocals_emptyFrame]

lemma bindStepAfterPush_context {Data : Type}
    (env : Nat → Nat → Data → LaunchContext → StepResult Data)
    (ctx : LaunchContext) (name : String) (i : Nat) :
    (bindStepAfterPush env ctx name i).context
      = { ctx with locals_stack := [(name, toString i)] :: ctx.locals_stack } :=
  rfl

lemma bindStepAfterPush_warnings {Data : Type}
    (env : Nat → Nat → Data → LaunchContext → StepResult Data)
    (ctx : LaunchContext) (name : String) (i : Nat) :
    (bindStepAfterPush env ctx name i).warnings
      = if containsLocals ctx.locals_stack name then
          ["local variable already exists: " ++ name ++ "=" ++
            ((lookupLocals ctx.locals_stack name).getD "")]
        else [] := by
  show (if containsLocals ([] :: ctx.locals_stack) name then
      ["local variable already exists: " ++ name ++ "=" ++
        ((lookupLocals ([] :: ctx.locals_stack) name).getD "")]
    else []) = _
  rw [containsLocals_emptyFrame, lookupLocals_emptyFrame]

lemma lookupFrame_append_last (pref : Frame) (name v : String)
    (h : lookupFrame pref name = none) :
    lookupFrame (pref ++ [(name, v)]) name = some v := by
  induction pref with
  | nil => simp [lookupFrame]
  | cons a rest ih =>
    obtain ⟨an, av⟩ := a
    by_cases hk : name = an
    · simp [lookupFrame, hk] at h
    · simp [lookupFrame, hk] at h ⊢
      exact ih h

lemma lookupLocals_extras (extras : List Frame) (s : Locals) (name : String)
    (hex : ∀ f ∈ extras, lookupFrame f name = none) :
    lookupLocals (extras ++ s) name = lookupLocals s name := by
  induction extras with
  | nil => rfl
  | cons f rest ih =>
    have hf := hex f (List.mem_cons_self f rest)
    simp only [List.cons_append, lookupLocals, hf]
    exact ih fun g hg => hex g (List.mem_cons_of_mem f hg)

/-- C7: a resolved count of zero yields an empty expansion and no
error: `range(0)` produces no iterations and `execute` returns the empty
list. -/
theorem forloop_zero_count {Data : Type} (fl : ForLoop Data) (ctx : LaunchContext)
    (v : String)
    (hv : lookupConfig ctx fl.launch_argument_name = some v)
    (hp : pyParseInt v = some 0) :
    fl.execute ctx = Except.ok [] := by
  simp [ForLoop.execute, ForLoop.executeS, hv, hp, buildLoop]

theorem forloop_zero_count_witness :
    ForLoop.execute (⟨"num", []⟩ : ForLoop Unit) ⟨[("num", "0")], []⟩ = Except.ok [] :=
  forloop_zero_count (⟨"num", []⟩ : ForLoop Unit) ⟨[("num", "0")], []⟩ "0" rfl (by decide)

/-- C9: `execute` leaves the action object itself unchanged — the method
body never assigns to a field of `self`, so the object coming out of the
state-passing form is the constructed one, and the `launch_argument_name`
and `entities` accessors still return exactly what `__init__` stored. -/
theorem forloop_execute_preserves_self {Data : Type} (fl : ForLoop Data)
    (ctx : LaunchContext) :
    (fl.executeS ctx).2 = fl
  ∧ (fl.executeS ctx).2.launch_argument_name = fl.launch_argument_name
  ∧ (fl.executeS ctx).2.entities = fl.entities :=
  ⟨rfl, rfl, rfl⟩

/-- C10: the three scope-management steps emitted by the expander
(`_push_locals`, `_set_index_local`, `_pop_locals`) each return `None`
when executed against a context: they never contribute further entities
to the recursive expansion. -/
theorem scope_steps_return_no_entities {Data : Type}
    (env : Nat → Nat → Data → LaunchContext → StepResult Data)
    (ctx : LaunchContext) (name : String) (i : Nat) :
    (Entity.exec env Entity.pushLocals ctx).returned = none
  ∧ (Entity.exec env (Entity.setIndexLocal name i) ctx).returned = none
  ∧ (Entity.exec env Entity.popLocals ctx).returned = none :=
  ⟨rfl, rfl, rfl⟩

/-- C6: the bind step checks for a pre-existing visible binding before
binding: executing the push step and then the bind step of iteration `i`
emits exactly one warning when the name was already visible, none
otherwise; the bind itself succeeds and the new binding shadows the
outer one (lookup now yields `str(i)`), while the outer frames are left
untouched below the new frame. -/
theorem forloop_shadow_check {Data : Type}
    (env : Nat → Nat → Data → LaunchContext → StepResult Data)
    (ctx : LaunchContext) (name : String) (i : Nat) :
    (containsLocals ctx.locals_stack name = true →
        (bindStepAfterPush env ctx name i).warnings.length = 1)
  ∧ (containsLocals ctx.locals_stack name = false →
        (bindStepAfterPush env ctx name i).warnings = [])
  ∧ (bindStepAfterPush env ctx name i).context.lookupLocal name = some (toString i)
  ∧ (bindStepAfterPush env ctx name i).context.locals_stack.tail = ctx.locals_stack := by
  refine ⟨?_, ?_, ?_, ?_⟩
  · intro h
    rw [bindStepAfterPush_warnings, h]
    simp
  · intro h
    rw [bindStepAfterPush_warnings, h]
    simp
  · rw [bindStepAfterPush_context]
    simp [LaunchContext.lookupLocal, lookupLocals, lookupFrame]
  · simp [bindStepAfterPush_context]

theorem forloop_shadow_check_witness :
    (bindStepAfterPush trivialTemplateExec ⟨[], [[("n", "7")]]⟩ "n" 2).warnings.length = 1
  ∧ (bindStepAfterPush trivialTemplateExec ⟨[], [[("n", "7")]]⟩ "n" 2).context.lookupLocal "n"
      = some (toString 2) :=
  ⟨(forloop_shadow_check trivialTemplateExec ⟨[], [[("n", "7")]]⟩ "n" 2).1 (by decide),
   (forloop_shadow_check trivialTemplateExec ⟨[], [[("n", "7")]]⟩ "n" 2).2.2.1⟩

/-- C4: scope isolation. Executing the pop step after the push and bind
steps of iteration `i` — with an arbitrary scope-balanced body in
between (the body may do anything to the top frame but leaves the outer
frames intact) — restores the lookup of the index name to exactly the
value, or absence, it had before the push. -/
theorem forloop_scope_isolation {Data : Type}
    (env : Nat → Nat → Data → LaunchContext → StepResult Data)
    (ctx : LaunchContext) (name : String) (i : Nat)
    (body : LaunchContext → LaunchContext)
    (hbody : ∀ (c : LaunchContext) (top : Frame) (rest : Locals),
      c.locals_stack = top :: rest → ∃ top2, (body c).locals_stack = top2 :: rest) :
    (Entity.exec env Entity.popLocals
        (body (bindStepAfterPush env ctx name i).context)).context.lookupLocal name
      = ctx.lookupLocal name := by
  obtain ⟨top2, h2⟩ := hbody (bindStepAfterPush env ctx name i).context
    [(name, toString i)] ctx.locals_stack
    (by rw [bindStepAfterPush_context])
  show (body (bindStepAfterPush env ctx name i).context).popLocals.lookupLocal name
    = ctx.lookupLocal name
  simp [LaunchContext.popLocals, LaunchContext.lookupLocal, h2]

theorem forloop_scope_isolation_witness :
    (Entity.exec trivialTemplateExec Entity.popLocals
        (bindStepAfterPush trivialTemplateExec ⟨[], [[("n", "9")]]⟩ "n" 0).context).context.lookupLocal "n"
      = (⟨[], [[("n", "9")]]⟩ : LaunchContext).lookupLocal "n" :=
  forloop_scope_isolation trivialTemplateExec ⟨[], [[("n", "9")]]⟩ "n" 0 (fun c => c)
    (fun _ top _ h => ⟨top, h⟩)

/-- C3: index binding round-trip. After iteration i's push and bind
steps, the store is exactly a new frame binding the index name to the
decimal string of `i` on top of the outer store; and any lookup
performed while deeper recursive expansion has stacked additional frames
(none of which rebinds the name) and extended the current frame with
other names still resolves the index name to that same string. -/
theorem forloop_index_binding_roundtrip {Data : Type}
    (env : Nat → Nat → Data → LaunchContext → StepResult Data)
    (ctx : LaunchContext) (name : String) (i : Nat) :
    (bindStepAfterPush env ctx name i).context.locals_stack
        = [(name, toString i)] :: ctx.locals_stack
  ∧ ∀ (extras : List Frame) (pref : Frame),
      (∀ f ∈ extras, lookupFrame f name = none) →
      lookupFrame pref name = none →
      lookupLocals (extras ++ (pref ++ [(name, toString i)]) :: ctx.locals_stack) name
        = some (toString i) := by
  refine ⟨by rw [bindStepAfterPush_context], ?_⟩
  intro extras pref hex hpref
  rw [lookupLocals_extras extras _ name hex]
  simp [lookupLocals, lookupFrame_append_last pref name _ hpref]

theorem forloop_index_binding_roundtrip_witness :
    lookupLocals
        ([[("x", "1")]] ++ (([("y", "2")] ++ [("n", toString 5)]) :: ([[("n", "0")]] : Locals)))
        "n"
      = some (toString 5) :=
  (forloop_index_binding_roundtrip trivialTemplateExec ⟨[], [[("n", "0")]]⟩ "n" 5).2
    [[("x", "1")]] [("y", "2")] (by decide) (by decide)

/-- C2 (amended): when the configuration value is absent or undeclared,
or its resolved string is not parseable as an integer by `int()` at all,
`execute` fails with a count-resolution error and returns no sequence.
(The original claim also demanded failure for values parseable as
NEGATIVE integers; the code accepts those and produces an empty
expansion, see the counterexample.) -/
theorem forloop_count_resolution_error {Data : Type} (fl : ForLoop Data)
    (ctx : LaunchContext)
    (h : lookupConfig ctx fl.launch_argument_name = none
       ∨ ∃ v, lookupConfig ctx fl.launch_argument_name = some v ∧ pyParseInt v = none) :
    ∃ msg, fl.execute ctx = Except.error (ForLoopError.countResolution msg) := by
  rcases h with h | ⟨v, hv, hp⟩
  · exact ⟨"substitution failure: launch configuration " ++ fl.launch_argument_name ++ " not found",
      by simp [ForLoop.execute, ForLoop.executeS, h]⟩
  · exact ⟨"invalid literal for int with base 10: " ++ v,
      by simp [ForLoop.execute, ForLoop.executeS, hv, hp]⟩

theorem forloop_count_resolution_error_witness :
    ∃ msg, ForLoop.execute (⟨"num", []⟩ : ForLoop Unit) ⟨[("num", "abc")], []⟩
      = Except.error (ForLoopError.countResolution msg) :=
  forloop_count_resolution_error (⟨"num", []⟩ : ForLoop Unit) ⟨[("num", "abc")], []⟩
    (Or.inr ⟨"abc", rfl, by decide⟩)

/-- C2 counterexample: the string "-3" is not parseable as a
non-negative integer, yet `execute` does not fail there — Python
`int("-3")` succeeds and `range(-3)` is empty, so the expansion is the
empty sequence with no error, contradicting the claim that every value
not parseable as a NON-NEGATIVE integer aborts with a count-resolution
error. -/
theorem forloop_negative_count_counterexample :
    specParsesAsNonNegInt "-3" = false
  ∧ ForLoop.execute (⟨"num", [fun _ => Except.ok ()]⟩ : ForLoop Unit) ⟨[("num", "-3")], []⟩
      = Except.ok []
  ∧ ∀ e, ForLoop.execute (⟨"num", [fun _ => Except.ok ()]⟩ : ForLoop Unit)
      ⟨[("num", "-3")], []⟩ ≠ Except.error e :=
  ⟨by decide, rfl, fun e h => nomatch h⟩

lemma instantiateFrom_ok {Data : Type} :
    ∀ (facs : List (Nat → Except String Data)) (i j : Nat) (ys : List (Entity Data)),
      instantiateFrom i j facs = Except.ok ys →
      ys.length = facs.length
        ∧ ∀ (k : Nat) (hk : k < ys.length), ∃ d, ys.get ⟨k, hk⟩ = Entity.template i (j + k) d := by
  intro facs
  induction facs with
  | nil =>
    intro i j ys h
    simp only [instantiateFrom, Except.ok.injEq] at h
    subst h
    exact ⟨rfl, fun k hk => absurd hk (by simp)⟩
  | cons f rest ih =>
    intro i j ys h
    simp only [instantiateFrom] at h
    cases hfi : f i with
    | error e => rw [hfi] at h; exact absurd h (by simp)
    | ok d =>
      rw [hfi] at h
      cases hrest : instantiateFrom i (j + 1) rest with
      | error e => rw [hrest] at h; exact absurd h (by simp)
      | ok ds =>
        rw [hrest] at h
        simp only [Except.ok.injEq] at h
        subst h
        obtain ⟨hlen, hshape⟩ := ih i (j + 1) ds hrest
        refine ⟨by simp [hlen], ?_⟩
        intro k hk
        cases k with
        | zero => exact ⟨d, by simp⟩
        | succ k =>
          obtain ⟨d2, hd2⟩ := hshape k (by simpa using Nat.lt_of_succ_lt_succ hk)
          refine ⟨d2, ?_⟩
          show ds.get _ = _
          rw [hd2]
          congr 1
          omega

lemma instantiateTemplates_ok {Data : Type} (facs : List (Nat → Except String Data))
    (i : Nat) (ys : List (Entity Data)) (h : instantiateTemplates facs i = Except.ok ys) :
    ys.length = facs.length
      ∧ ∀ (k : Nat) (hk : k < ys.length), ∃ d, ys.get ⟨k, hk⟩ = Entity.template i k d := by
  obtain ⟨hlen, hshape⟩ := instantiateFrom_ok facs i 0 ys h
  exact ⟨hlen, fun k hk => by simpa using hshape k hk⟩

lemma instantiateTemplates_mem {Data : Type} (facs : List (Nat → Except String Data))
    (i : Nat) (ys : List (Entity Data)) (h : instantiateTemplates facs i = Except.ok ys) :
    ∀ e ∈ ys, ∃ j d, e = Entity.template i j d ∧ j < facs.length := by
  intro e he
  obtain ⟨⟨k, hk⟩, hget⟩ := List.mem_iff_get.mp he
  obtain ⟨hlen, hshape⟩ := instantiateTemplates_ok facs i ys h
  obtain ⟨d, hd⟩ := hshape k hk
  exact ⟨k, d, by rw [← hget, hd], hlen ▸ hk⟩

lemma instantiateTemplates_all_template {Data : Type}
    (facs : List (Nat → Except String Data)) (i : Nat) (ys : List (Entity Data))
    (h : instantiateTemplates facs i = Except.ok ys) :
    ∀ e ∈ ys, Entity.isTemplate e = true := by
  intro e he
  obtain ⟨j, d, hd, _⟩ := instantiateTemplates_mem facs i ys h e he
  rw [hd]
  rfl

lemma instantiateTemplates_nodup {Data : Type} (facs : List (Nat → Except String Data))
    (i : Nat) (ys : List (Entity Data)) (h : instantiateTemplates facs i = Except.ok ys) :
    ys.Nodup := by
  rw [List.nodup_iff_injective_get]
  intro a b hab
  obtain ⟨_, hshape⟩ := instantiateTemplates_ok facs i ys h
  obtain ⟨da, hda⟩ := hshape a.1 a.2
  obtain ⟨db, hdb⟩ := hshape b.1 b.2
  rw [hda, hdb] at hab
  injection hab with _ h2 _
  exact Fin.ext h2

lemma buildLoop_ok {Data : Type} (name : String) (facs : List (Nat → Except String Data))
    (tmpl : Nat → List (Entity Data))
    (ht : ∀ i, instantiateTemplates facs i = Except.ok (tmpl i)) :
    ∀ (m i0 : Nat), buildLoop name facs m i0
      = Except.ok ((List.range' i0 m).flatMap fun i =>
          Entity.pushLocals :: Entity.setIndexLocal name i :: (tmpl i ++ [Entity.popLocals])) := by
  intro m
  induction m with
  | zero => intro i0; rfl
  | succ m ih =>
    intro i0
    simp only [buildLoop, ht i0, ih (i0 + 1), List.range'_succ, List.flatMap_cons]

lemma countP_flatMap_const {α β : Type} (l : List α) (g : α → List β) (p : β → Bool)
    (c : Nat) (h : ∀ a ∈ l, (g a).countP p = c) :
    (l.flatMap g).countP p = l.length * c := by
  induction l with
  | nil => simp
  | cons a rest ih =>
    simp only [List.flatMap_cons, List.countP_append, List.length_cons]
    rw [h a (List.mem_cons_self a rest), ih fun b hb => h b (List.mem_cons_of_mem a hb)]
    ring

lemma isPush_false_of_template {Data : Type} (e : Entity Data)
    (h : Entity.isTemplate e = true) : Entity.isPush e = false := by
  cases e <;> simp [Entity.isTemplate, Entity.isPush] at h ⊢

lemma isBind_false_of_template {Data : Type} (e : Entity Data)
    (h : Entity.isTemplate e = true) : Entity.isBind e = false := by
  cases e <;> simp [Entity.isTemplate, Entity.isBind] at h ⊢

lemma isPop_false_of_template {Data : Type} (e : Entity Data)
    (h : Entity.isTemplate e = true) : Entity.isPop e = false := by
  cases e <;> simp [Entity.isTemplate, Entity.isPop] at h ⊢

lemma block_counts {Data : Type} (name : String) (i : Nat) (ts : List (Entity Data))
    (hts : ∀ e ∈ ts, Entity.isTemplate e = true) :
    (Entity.pushLocals :: Entity.setIndexLocal name i :: (ts ++ [Entity.popLocals])).countP
        Entity.isPush = 1
  ∧ (Entity.pushLocals :: Entity.setIndexLocal name i :: (ts ++ [Entity.popLocals])).countP
        Entity.isBind = 1
  ∧ (Entity.pushLocals :: Entity.setIndexLocal name i :: (ts ++ [Entity.popLocals])).countP
        Entity.isPop = 1
  ∧ (Entity.pushLocals :: Entity.setIndexLocal name i :: (ts ++ [Entity.popLocals])).countP
        Entity.isTemplate = ts.length := by
  have hp0 : ts.countP Entity.isPush = 0 :=
    List.countP_eq_zero.mpr fun e he => by simp [isPush_false_of_template e (hts e he)]
  have hb0 : ts.countP Entity.isBind = 0 :=
    List.countP_eq_zero.mpr fun e he => by simp [isBind_false_of_template e (hts e he)]
  have hq0 : ts.countP Entity.isPop = 0 :=
    List.countP_eq_zero.mpr fun e he => by simp [isPop_false_of_template e (hts e he)]
  have htl : ts.countP Entity.isTemplate = ts.length := List.countP_eq_length.mpr hts
  refine ⟨?_, ?_, ?_, ?_⟩ <;>
    simp [List.countP_cons, List.countP_append, hp0, hb0, hq0, htl,
      Entity.isPush, Entity.isBind, Entity.isPop, Entity.isTemplate]

/-- C1: for a resolved non-negative count N, `execute` returns one flat
sequence that is exactly N repetitions, for i = 0..N-1 in order, of the
push step, the bind step for i, the freshly instantiated template
entities of iteration i in declared order, and the pop step immediately
after them; hence it holds N push steps, N bind steps, N pop steps and
N times |entities| template-derived entities. -/
theorem forloop_expansion_structure {Data : Type} (fl : ForLoop Data)
    (ctx : LaunchContext) (v : String) (N : Nat) (tmpl : Nat → List (Entity Data))
    (hv : lookupConfig ctx fl.launch_argument_name = some v)
    (hp : pyParseInt v = some (N : Int))
    (ht : ∀ i, instantiateTemplates fl.entities i = Except.ok (tmpl i)) :
    ∃ out, fl.execute ctx = Except.ok out
      ∧ out = (List.range N).flatMap (fun i =>
          Entity.pushLocals :: Entity.setIndexLocal fl.launch_argument_name i ::
            (tmpl i ++ [Entity.popLocals]))
      ∧ out.countP Entity.isPush = N
      ∧ out.countP Entity.isBind = N
      ∧ out.countP Entity.isPop = N
      ∧ out.countP Entity.isTemplate = N * fl.entities.length := by
  have hexec : fl.execute ctx = Except.ok ((List.range N).flatMap fun i =>
      Entity.pushLocals :: Entity.setIndexLocal fl.launch_argument_name i ::
        (tmpl i ++ [Entity.popLocals])) := by
    simp only [ForLoop.execute, ForLoop.executeS, hv, hp, Int.toNat_ofNat]
    rw [buildLoop_ok fl.launch_argument_name fl.entities tmpl ht N 0,
      ← List.range_eq_range']
  refine ⟨_, hexec, rfl, ?_, ?_, ?_, ?_⟩
  · rw [countP_flatMap_const _ _ _ 1 fun i _ =>
      (block_counts fl.launch_argument_name i (tmpl i)
        (instantiateTemplates_all_template fl.entities i (tmpl i) (ht i))).1]
    simp
  · rw [countP_flatMap_const _ _ _ 1 fun i _ =>
      (block_counts fl.launch_argument_name i (tmpl i)
        (instantiateTemplates_all_template fl.entities i (tmpl i) (ht i))).2.1]
    simp
  · rw [countP_flatMap_const _ _ _ 1 fun i _ =>
      (block_counts fl.launch_argument_name i (tmpl i)
        (instantiateTemplates_all_template fl.entities i (tmpl i) (ht i))).2.2.1]
    simp
  · rw [countP_flatMap_const _ _ _ fl.entities.length fun i _ => ?_]
    · simp
    · rw [(block_counts fl.launch_argument_name i (tmpl i)
        (instantiateTemplates_all_template fl.entities i (tmpl i) (ht i))).2.2.2]
      exact (instantiateTemplates_ok fl.entities i (tmpl i) (ht i)).1

/-- Sample loop used by concrete witnesses: one template entity whose
constructor always succeeds. -/
def sampleFL : ForLoop Unit := ⟨"num", [fun _ => Except.ok ()]⟩

theorem forloop_expansion_structure_witness :
    ∃ out, ForLoop.execute sampleFL ⟨[("num", "2")], []⟩ = Except.ok out
      ∧ out = (List.range 2).flatMap (fun i =>
          Entity.pushLocals :: Entity.setIndexLocal sampleFL.launch_argument_name i ::
            ([Entity.template i 0 ()] ++ [Entity.popLocals]))
      ∧ out.countP Entity.isPush = 2
      ∧ out.countP Entity.isBind = 2
      ∧ out.countP Entity.isPop = 2
      ∧ out.countP Entity.isTemplate = 2 * sampleFL.entities.length :=
  forloop_expansion_structure sampleFL ⟨[("num", "2")], []⟩ "2" 2
    (fun i => [Entity.template i 0 ()]) rfl (by decide) (fun i => rfl)

/-- C5: freshness of template instances. Under a successful expansion,
every template-derived element of the returned sequence is an instance
created inside the loop at expansion time — tagged with its iteration
and its position in the template list, both in range — and no two
elements of the sequence are the same instance (the template-derived
part of the sequence has no duplicates), so no instance appears twice
and no two iterations share one. -/
theorem forloop_fresh_instantiation {Data : Type} (fl : ForLoop Data)
    (ctx : LaunchContext) (v : String) (N : Nat) (tmpl : Nat → List (Entity Data))
    (hv : lookupConfig ctx fl.launch_argument_name = some v)
    (hp : pyParseInt v = some (N : Int))
    (ht : ∀ i, instantiateTemplates fl.entities i = Except.ok (tmpl i)) :
    ∃ out, fl.execute ctx = Except.ok out
      ∧ (∀ e ∈ out, Entity.isTemplate e = true →
          ∃ i j d, e = Entity.template i j d ∧ i < N ∧ j < fl.entities.length)
      ∧ (out.filter Entity.isTemplate).Nodup := by
  have hexec : fl.execute ctx = Except.ok ((List.range N).flatMap fun i =>
      Entity.pushLocals :: Entity.setIndexLocal fl.launch_argument_name i ::
        (tmpl i ++ [Entity.popLocals])) := by
    simp only [ForLoop.execute, ForLoop.executeS, hv, hp, Int.toNat_ofNat]
    rw [buildLoop_ok fl.launch_argument_name fl.entities tmpl ht N 0,
      ← List.range_eq_range']
  refine ⟨_, hexec, ?_, ?_⟩
  · intro e he htm
    obtain ⟨i, hi, hbl⟩ := List.mem_flatMap.mp he
    have hiN : i < N := List.mem_range.mp hi
    simp only [List.mem_cons, List.mem_append, List.mem_singleton,
      List.mem_nil_iff, or_false] at hbl
    rcases hbl with h1 | h1 | h1 | h1
    · rw [h1] at htm; exact absurd htm (by simp [Entity.isTemplate])
    · rw [h1] at htm; exact absurd htm (by simp [Entity.isTemplate])
    · obtain ⟨j, d, hd, hj⟩ := instantiateTemplates_mem fl.entities i (tmpl i) (ht i) e h1
      exact ⟨i, j, d, hd, hiN, hj⟩
    · rw [h1] at htm; exact absurd htm (by simp [Entity.isTemplate])
  · have hfil : ((List.range N).flatMap fun i =>
        Entity.pushLocals :: Entity.setIndexLocal fl.launch_argument_name i ::
          (tmpl i ++ [Entity.popLocals])).filter Entity.isTemplate
        = (List.range N).flatMap tmpl := by
      rw [List.filter_flatMap]
      congr 1
      funext i
      simp only [List.filter_cons, List.filter_append]
      rw [List.filter_eq_self.mpr (instantiateTemplates_all_template fl.entities i (tmpl i) (ht i))]
      simp [Entity.isTemplate]
    rw [hfil]
    show ((List.range N).map tmpl).flatten.Nodup
    rw [List.nodup_flatten]
    constructor
    · intro l hl
      obtain ⟨i, _, hmap⟩ := List.mem_map.mp hl
      rw [← hmap]
      exact instantiateTemplates_nodup fl.entities i (tmpl i) (ht i)
    · rw [List.pairwise_map]
      refine List.Pairwise.imp ?_ (List.pairwise_lt_range N)
      intro a b hab x hxa hxb
      obtain ⟨ja, da, hda, _⟩ := instantiateTemplates_mem fl.entities a (tmpl a) (ht a) x hxa
      obtain ⟨jb, db, hdb, _⟩ := instantiateTemplates_mem fl.entities b (tmpl b) (ht b) x hxb
      rw [hda] at hdb
      injection hdb with h1 _ _
      omega

theorem forloop_fresh_instantiation_witness :
    ∃ out, ForLoop.execute sampleFL ⟨[("num", "3")], []⟩ = Except.ok out
      ∧ (∀ e ∈ out, Entity.isTemplate e = true →
          ∃ i j d, e = Entity.template i j d ∧ i < 3 ∧ j < sampleFL.entities.length)
      ∧ (out.filter Entity.isTemplate).Nodup :=
  forloop_fresh_instantiation sampleFL ⟨[("num", "3")], []⟩ "3" 3
    (fun i => [Entity.template i 0 ()]) rfl (by decide) (fun i => rfl)

lemma buildLoop_error {Data : Type} (name : String)
    (facs : List (Nat → Except String Data)) (tmpl : Nat → List (Entity Data))
    (k : Nat) (e : String)
    (hpre : ∀ i, i < k → instantiateTemplates facs i = Except.ok (tmpl i))
    (hfail : instantiateTemplates facs k = Except.error e) :
    ∀ (m i0 : Nat), i0 ≤ k → k < i0 + m → buildLoop name facs m i0 = Except.error e := by
  intro m
  induction m with
  | zero => intro i0 h1 h2; omega
  | succ m ih =>
    intro i0 h1 h2
    by_cases hik : i0 = k
    · subst hik
      simp only [buildLoop, hfail]
    · have hlt : i0 < k := lt_of_le_of_ne h1 hik
      simp only [buildLoop, hpre i0 hlt, ih (i0 + 1) hlt (by omega)]

/-- C8: eager flattening of failures. If the template constructors of
every iteration before `k` succeed and a constructor of iteration `k`
fails, `execute` surfaces exactly that construction error — no sequence,
partial or otherwise, is returned, and nothing about iterations after
`k` influences the outcome (no hypothesis constrains them). -/
theorem forloop_eager_construction_failure {Data : Type} (fl : ForLoop Data)
    (ctx : LaunchContext) (v : String) (N k : Nat) (e : String)
    (tmpl : Nat → List (Entity Data))
    (hv : lookupConfig ctx fl.launch_argument_name = some v)
    (hp : pyParseInt v = some (N : Int))
    (hk : k < N)
    (hpre : ∀ i, i < k → instantiateTemplates fl.entities i = Except.ok (tmpl i))
    (hfail : instantiateTemplates fl.entities k = Except.error e) :
    fl.execute ctx = Except.error (ForLoopError.entityConstruction e) := by
  simp only [ForLoop.execute, ForLoop.executeS, hv, hp, Int.toNat_ofNat]
  rw [buildLoop_error fl.launch_argument_name fl.entities tmpl k e hpre hfail N 0
    (Nat.zero_le k) (by omega)]

/-- Loop whose single template constructor fails exactly on its second
call (iteration 1): used as the concrete witness for eager failure. -/
def failingFL : ForLoop Unit :=
  ⟨"num", [fun i => if i = 1 then Except.error "boom" else Except.ok ()]⟩

theorem forloop_eager_construction_failure_witness :
    ForLoop.execute failingFL ⟨[("num", "3")], []⟩
      = Except.error (ForLoopError.entityConstruction "boom") :=
  forloop_eager_construction_failure failingFL ⟨[("num", "3")], []⟩ "3" 3 1 "boom"
    (fun i => [Entity.template i 0 ()]) rfl (by decide) (by decide)
    (by intro i hi; interval_cases i; rfl) rfl

end LaunchForLoop
